import Mathlib

/-!
# modmesh python wrapper helpers (`include/modmesh/python/common.hpp`)

A shallow embedding of the buffer bridge (`to_ndarray`, `makeSimpleArray`), the
ownership adapter (`ConcreteBufferNdarrayRemover`), the array property setters of
`WrapBase` and the profiling hook (`process_attribute<mmtag>`).

Conventions.
* `size_t` and `ssize_t` values, byte counts and addresses are natural numbers.
  The one arithmetic operation the header performs itself, the `size_t` product
  `v *= sarr.itemsize()` of `to_ndarray`, is taken modulo `2 ^ 64`.
* A C++ function is a function into `Except Exception`; a function that mutates an
  object through a reference returns the new state next to its outcome.
* `std::shared_ptr` and `pybind11` handles are represented by the value they
  refer to; the payload bytes themselves are not part of any value, so no function
  of the embedding can read or copy them.
* The external array system (pybind11 over numpy) is taken at the interface the
  spec lists for it: the queries `dtype`, `ndim`, `shape`, `nbytes`, `mutable_data`
  and the construction from dtype, shape, byte strides, pointer and owner. An array
  carries its writeable flag, which `mutable_data` checks, and `array_t<T>` is an
  array whose dtype is that of `T`.
* `modmesh.hpp` (`SimpleArray`, `ConcreteBuffer`, `TimeRegistry`) is not part of
  the sources at hand; what the header uses of it is modelled from the spec and
  marked so.
-/

namespace modmesh

/-- Number of values of `size_t` (64-bit targets). -/
def size_t_modulus : Nat := 2 ^ 64

/-- Element types `T` the templates are instantiated with: the arithmetic types for
which `pybind11::detail::npy_format_descriptor<T>` is defined. The constructor is
also the tag of the corresponding numpy dtype. -/
inductive ElemType
  | bool | int8 | uint8 | int16 | uint16 | int32 | uint32 | int64 | uint64
  | float | double
  deriving DecidableEq, Repr

/-- Size in bytes of an element type, `sizeof(T)`. -/
def ElemType.sizeof : ElemType → Nat
  | .bool => 1 | .int8 => 1 | .uint8 => 1
  | .int16 => 2 | .uint16 => 2
  | .int32 => 4 | .uint32 => 4 | .float => 4
  | .int64 => 8 | .uint64 => 8 | .double => 8

/-- Dynamic type of a release strategy object, what `typeid` yields for it. -/
inductive type_info
  | remover_type
  | ConcreteBufferNdarrayRemover
  | other (name : String)
  deriving DecidableEq, Repr

mutual

/-- Python object used as the owner (`base`) of an external array. -/
inductive pyobject : Type
  | none
  | ConcreteBuffer (buffer : ConcreteBuffer)
  | array (arr : array)
  | foreign (id : Nat)

/-- The external array value `pybind11::array` (the spec's ExternalArrayView):
element type tag, shape, strides in bytes, raw data pointer, owner reference and
the writeable flag of the numpy array. -/
inductive array : Type
  | mk (dtype : ElemType) (shape : List Nat) (strides : List Nat) (data : Nat)
      (base : pyobject) (writeable : Bool)

/-- Modelled from the spec: `ConcreteBuffer::remover_type`, the polymorphic release
strategy of a buffer, is declared in `modmesh.hpp`. `plain` is an object of the
base class itself, the strategy that owns and frees; `other` is any further derived
class (its type name, whether its call operator frees the pointer, the object it
pins).
`ConcreteBufferNdarrayRemover` is the struct of this header with its member
`ndarray`. -/
inductive remover_type : Type
  | plain
  | ConcreteBufferNdarrayRemover (ndarray : array)
  | other (name : String) (frees : Bool) (pinned : pyobject)

/-- Modelled from the spec: `ConcreteBuffer` (the spec's NativeBuffer) is declared in
`modmesh.hpp`; it has a byte length, a raw pointer and a release strategy.
`ConcreteBuffer.mk` is `ConcreteBuffer::construct(nbytes, data, remover)`. -/
inductive ConcreteBuffer : Type
  | mk (nbytes : Nat) (data : Nat) (remover : remover_type)

end

/-- Exceptions that leave the functions of the header: the `std::length_error` the
setters throw, and the `std::domain_error` pybind11 throws from `mutable_data()`. -/
inductive Exception
  | length_error (what : String)
  | domain_error (what : String)
  deriving DecidableEq, Repr

namespace array

/-- Element type tag, `arr.dtype()`. -/
def dtype : array → ElemType
  | mk d _ _ _ _ _ => d

/-- All dimension sizes, `arr.shape()`. -/
def shape_vec : array → List Nat
  | mk _ s _ _ _ _ => s

/-- Byte strides, `arr.strides()`. -/
def strides : array → List Nat
  | mk _ _ s _ _ _ => s

/-- Raw data pointer, `arr.data()`. -/
def data : array → Nat
  | mk _ _ _ p _ _ => p

/-- Owner reference, `arr.base()`. -/
def base : array → pyobject
  | mk _ _ _ _ b _ => b

/-- Writeable flag, `arr.writeable()`. -/
def writeable : array → Bool
  | mk _ _ _ _ _ w => w

/-- Number of dimensions, `arr.ndim()`. -/
def ndim (arr : array) : Nat := arr.shape_vec.length

/-- Size of dimension `i`, `arr.shape(i)`. -/
def shape (arr : array) (i : Nat) : Nat := arr.shape_vec.getD i 0

/-- Size of one element, `arr.itemsize()`. -/
def itemsize (arr : array) : Nat := arr.dtype.sizeof

/-- Number of elements, `arr.size()`. pybind11 computes it as
`std::accumulate(shape(), shape() + ndim(), (ssize_t) 1, std::multiplies<ssize_t>())`:
the product of the dimension sizes, which is one for an array without dimensions. -/
def size (arr : array) : Nat := arr.shape_vec.foldl (fun acc n => acc * n) 1

/-- Total byte size, `arr.nbytes()`; pybind11 returns `size() * itemsize()`. -/
def nbytes (arr : array) : Nat := arr.size * arr.itemsize

/-- Mutable data pointer, `arr.mutable_data()`. pybind11 first runs
`check_writeable()`, which throws `std::domain_error("array is not writeable")`
when the flag is off. -/
def mutable_data (arr : array) : Except Exception Nat :=
  if arr.writeable then
    Except.ok arr.data
  else
    Except.error (Exception.domain_error "array is not writeable")

/-- The five-argument constructor `pybind11::array(dtype, shape, strides, ptr, base)`
as `to_ndarray` uses it: the owner is the python object of a shared buffer, not an
array, and pybind11 then marks the new array writeable. -/
def construct (dtype : ElemType) (shape : List Nat) (strides : List Nat) (ptr : Nat)
    (base : pyobject) : array :=
  array.mk dtype shape strides ptr base true

end array

/-- The typed array `pybind11::array_t<T>`: an array whose dtype is the dtype of
`T`. -/
structure array_t (T : ElemType) where
  arr : array
  dtype_eq : arr.dtype = T

namespace ConcreteBuffer

/-- Byte length of the buffer. -/
def nbytes : ConcreteBuffer → Nat
  | mk n _ _ => n

/-- Raw pointer of the buffer. -/
def data : ConcreteBuffer → Nat
  | mk _ p _ => p

/-- Release strategy of the buffer. -/
def remover : ConcreteBuffer → remover_type
  | mk _ _ r => r

end ConcreteBuffer

/-- Modelled from the spec: `SimpleArray<T>` (the spec's NativeArray) is declared in
`modmesh.hpp`; its internal representation is shape, stride (in elements) and the
shared buffer handle. -/
structure SimpleArray (T : ElemType) where
  shape : List Nat
  stride : List Nat
  buffer : ConcreteBuffer

namespace SimpleArray

variable {T : ElemType}

/-- Item size `sizeof(T)`, `sarr.itemsize()`. -/
def itemsize (_sarr : SimpleArray T) : Nat := T.sizeof

/-- Modelled from the spec: `sarr.data()`, the pointer into the buffer. -/
def data (sarr : SimpleArray T) : Nat := sarr.buffer.data

/-- Modelled from the spec: `sarr.nbytes()`, the byte length of the array, which is
the byte length of the buffer backing it. -/
def nbytes (sarr : SimpleArray T) : Nat := sarr.buffer.nbytes

/-- Modelled from the spec: the constructor `SimpleArray<T>(shape, buffer)` of
`modmesh.hpp`. The array takes the given shape and buffer; the rule by which the
library derives the element stride from the shape is the parameter `calc_stride`. -/
def construct (calc_stride : List Nat → List Nat) (shape : List Nat)
    (buffer : ConcreteBuffer) : SimpleArray T :=
  { shape := shape, stride := calc_stride shape, buffer := buffer }

/-- Modelled from the spec: `a.swap(b)` of `modmesh.hpp` exchanges the internal
representation (shape, stride, buffer handle) of the two arrays; the pair returned
is the new content of `a` and of `b`. -/
def swap (a b : SimpleArray T) : SimpleArray T × SimpleArray T := (b, a)

end SimpleArray

/-- A concrete stride rule on which the definitions are evaluated in examples:
contiguous row-major element strides (the last dimension has stride one). The
statements below hold for every stride rule. -/
def row_major_stride : List Nat → List Nat
  | [] => []
  | _ :: rest => rest.foldl (fun acc n => acc * n) 1 :: row_major_stride rest

/-- Modelled from the spec: a call received by a timer entry of the `TimeRegistry`
declared in `modmesh.hpp`. -/
inductive TimerEvent
  | start
  | stop
  deriving DecidableEq, Repr

/-- Modelled from the spec: a timer entry accumulates the start and stop calls made
on it, in the order they were made. -/
structure TimerEntry where
  events : List TimerEvent
  deriving DecidableEq, Repr

namespace TimerEntry

/-- Entry as it is when created: nothing recorded. -/
def fresh : TimerEntry := { events := [] }

/-- Modelled from the spec: `TimerEntry.start()`. -/
def start (e : TimerEntry) : TimerEntry := { events := e.events ++ [TimerEvent.start] }

/-- Modelled from the spec: `TimerEntry.stop()`. -/
def stop (e : TimerEntry) : TimerEntry := { events := e.events ++ [TimerEvent.stop] }

end TimerEntry

/-- Modelled from the spec: the process-wide registry of timer entries keyed by
name, `TimeRegistry` of `modmesh.hpp`. A name without entry maps to `none`. -/
structure TimeRegistry where
  entries : String → Option TimerEntry

namespace TimeRegistry

/-- Modelled from the spec: `entry(name)` returns the entry of that name and creates
it if it is absent. -/
def entry (reg : TimeRegistry) (name : String) : TimerEntry × TimeRegistry :=
  match reg.entries name with
  | some e => (e, reg)
  | none =>
    (TimerEntry.fresh, { entries := Function.update reg.entries name (some TimerEntry.fresh) })

/-- Write through the reference that `entry(name)` returned. -/
def assign (reg : TimeRegistry) (name : String) (e : TimerEntry) : TimeRegistry :=
  { entries := Function.update reg.entries name (some e) }

end TimeRegistry

namespace python

/-- The class `WrapperProfilerStatus` with its only member. -/
structure WrapperProfilerStatus where
  m_enabled : Bool
  deriving DecidableEq, Repr

namespace WrapperProfilerStatus

/-- The private constructor: profiling is on. -/
def construct : WrapperProfilerStatus := { m_enabled := true }

/-- Reads the flag, `enabled()`. -/
def enabled (s : WrapperProfilerStatus) : Bool := s.m_enabled

/-- Sets the flag, `enable()`. -/
def enable (_s : WrapperProfilerStatus) : WrapperProfilerStatus := { m_enabled := true }

/-- Clears the flag, `disable()`. -/
def disable (_s : WrapperProfilerStatus) : WrapperProfilerStatus := { m_enabled := false }

end WrapperProfilerStatus

/-- The process-wide singletons the hook works on: `WrapperProfilerStatus::me()` and
`TimeRegistry::me()`. -/
structure Process where
  profiler : WrapperProfilerStatus
  registry : TimeRegistry

end python

end modmesh

namespace pybind11

namespace detail

open modmesh modmesh.python

/-- The part of `function_record` the hook reads: the `__name__` of the scope and
the name of the function. -/
structure function_record where
  scope_name : String
  name : String
  deriving DecidableEq, Repr

/-- The `function_call` handed to the hook. -/
structure function_call where
  func : function_record
  deriving DecidableEq, Repr

namespace process_attribute

/-- Key of the timer entry, `get_name(call)`: scope name, a dot, function name. -/
def get_name (call : function_call) : String :=
  let r := call.func
  r.scope_name ++ "." ++ r.name

/-- Hook run before the call, `precall(call)`. -/
def precall (call : function_call) (p : Process) : Process :=
  if p.profiler.enabled then
    let (e, reg) := p.registry.entry (get_name call)
    { p with registry := reg.assign (get_name call) e.start }
  else
    p

/-- Hook run after the call, `postcall(call, handle)`. -/
def postcall (call : function_call) (p : Process) : Process :=
  if p.profiler.enabled then
    let (e, reg) := p.registry.entry (get_name call)
    { p with registry := reg.assign (get_name call) e.stop }
  else
    p

/-- A timed call as the spec orders it: precall, the operation `op`, postcall. -/
def timed_call (call : function_call) (op : Process → Process) (p : Process) : Process :=
  postcall call (op (precall call p))

end process_attribute

end detail

end pybind11

namespace modmesh

namespace python

/-- The numpy dtype of `T`, `pybind11::detail::npy_format_descriptor<T>::dtype()`. -/
def npy_format_descriptor (T : ElemType) : ElemType := T

namespace ConcreteBufferNdarrayRemover

/-- Dynamic type of a release strategy, `typeid(other)`. -/
def typeid : remover_type → type_info
  | .plain => .remover_type
  | .ConcreteBufferNdarrayRemover _ => .ConcreteBufferNdarrayRemover
  | .other name _ _ => .other name

/-- Exact-type check `ConcreteBufferNdarrayRemover::is_same_type`. -/
def is_same_type (other : remover_type) : Bool :=
  decide (typeid other = type_info.ConcreteBufferNdarrayRemover)

/-- The explicit constructor: the adapter keeps the array it is given. -/
def construct (arr_in : array) : remover_type :=
  remover_type.ConcreteBufferNdarrayRemover arr_in

/-- Call operator of a release strategy on the buffer pointer; the result tells
whether the pointer is freed. The operator of `ConcreteBufferNdarrayRemover` has an
empty body; the plain strategy frees (from the spec). -/
def call : remover_type → Nat → Bool
  | .plain, _ => true
  | .ConcreteBufferNdarrayRemover _, _ => false
  | .other _ frees _, _ => frees

/-- The python object a release strategy keeps alive. -/
def pinned : remover_type → pyobject
  | .plain => pyobject.none
  | .ConcreteBufferNdarrayRemover ndarray => pyobject.array ndarray
  | .other _ _ p => p

end ConcreteBufferNdarrayRemover

/-- Native to external: `to_ndarray(sarr)`. Shape and stride are copied into
vectors, every stride is multiplied in place by the item size (a `size_t` product),
and the array is built over `sarr.data()` with the shared buffer as owner. -/
def to_ndarray {T : ElemType} (sarr : SimpleArray T) : Except Exception array :=
  let shape : List Nat := sarr.shape
  let stride : List Nat :=
    sarr.stride.map (fun v => (v * sarr.itemsize) % size_t_modulus)
  pure (array.construct (npy_format_descriptor T) shape stride sarr.data
    (pyobject.ConcreteBuffer sarr.buffer))

/-- The loop `for (i = 0; i < ndarr.ndim(); ++i) shape.push_back(ndarr.shape(i))`,
started at index `i` with `fuel` iterations left. -/
def makeSimpleArray.loop (ndarr : array) : Nat → Nat → List Nat → List Nat
  | 0, _, shape => shape
  | fuel + 1, i, shape => loop ndarr fuel (i + 1) (shape ++ [ndarr.shape i])

/-- External to native: `makeSimpleArray<T>(ndarr)` for `ndarr` of type
`array_t<T>`. The shape is copied, then the buffer is constructed from `nbytes()`,
`mutable_data()` (which throws on a read-only array) and a new adapter holding the
array. -/
def makeSimpleArray (calc_stride : List Nat → List Nat) (T : ElemType)
    (ndarr : array_t T) : Except Exception (SimpleArray T) :=
  let shape : List Nat := makeSimpleArray.loop ndarr.arr ndarr.arr.ndim 0 []
  match ndarr.arr.mutable_data with
  | Except.error e => Except.error e
  | Except.ok data =>
    let buffer : ConcreteBuffer :=
      ConcreteBuffer.mk ndarr.arr.nbytes data
        (ConcreteBufferNdarrayRemover.construct ndarr.arr)
    pure (SimpleArray.construct calc_stride shape buffer)

/-- Address of a `SimpleArray<T>` object: what a C++ reference to it denotes. -/
abbrev Address := Nat

/-- The `SimpleArray<T>` objects of the process, by address. -/
abbrev Store (T : ElemType) := Address → SimpleArray T

namespace WrapBase

variable {T : ElemType} {wrapped_type : Type}

/-- Message of the length error thrown by the property setters. -/
def length_message (input_nbytes internal_nbytes : Nat) : String :=
  toString input_nbytes ++ " bytes of input array differ from "
    ++ toString internal_nbytes ++ " bytes of internal array"

/-- Getter installed by `expose_SimpleArray`: the reference `f(self)` itself. -/
def expose_SimpleArray.getter (f : wrapped_type → Address) (self : wrapped_type) :
    Address :=
  f self

/-- Setter installed by `expose_SimpleArray`; the swap is
`makeSimpleArray(ndarr).swap(this_array)`. -/
def expose_SimpleArray.setter (calc_stride : List Nat → List Nat)
    (f : wrapped_type → Address) (self : wrapped_type) (ndarr : array_t T)
    (st : Store T) : Except Exception Unit × Store T :=
  let this_array : Address := f self
  if (st this_array).nbytes ≠ ndarr.arr.nbytes then
    (Except.error (Exception.length_error
      (length_message ndarr.arr.nbytes (st this_array).nbytes)), st)
  else
    match makeSimpleArray calc_stride T ndarr with
    | Except.error e => (Except.error e, st)
    | Except.ok tmp =>
      let swapped := SimpleArray.swap tmp (st this_array)
      (Except.ok (), Function.update st this_array swapped.2)

/-- Getter installed by `expose_SimpleArrayAsNdarray`: `to_ndarray(f(self))`. -/
def expose_SimpleArrayAsNdarray.getter (f : wrapped_type → Address)
    (self : wrapped_type) (st : Store T) : Except Exception array :=
  to_ndarray (st (f self))

/-- Setter installed by `expose_SimpleArrayAsNdarray`; the swap is
`this_array.swap(makeSimpleArray(ndarr))`. -/
def expose_SimpleArrayAsNdarray.setter (calc_stride : List Nat → List Nat)
    (f : wrapped_type → Address) (self : wrapped_type) (ndarr : array_t T)
    (st : Store T) : Except Exception Unit × Store T :=
  let this_array : Address := f self
  if (st this_array).nbytes ≠ ndarr.arr.nbytes then
    (Except.error (Exception.length_error
      (length_message ndarr.arr.nbytes (st this_array).nbytes)), st)
  else
    match makeSimpleArray calc_stride T ndarr with
    | Except.error e => (Except.error e, st)
    | Except.ok tmp =>
      let swapped := SimpleArray.swap (st this_array) tmp
      (Except.ok (), Function.update st this_array swapped.1)

end WrapBase

end python

end modmesh

/-! ## Auxiliary facts -/

namespace modmesh

namespace python

theorem makeSimpleArray.loop_eq (ndarr : array) (fuel i : Nat) (acc : List Nat) :
    makeSimpleArray.loop ndarr fuel i acc
      = acc ++ (List.range' i fuel).map (fun j => ndarr.shape j) := by
  induction fuel generalizing i acc with
  | zero => simp [makeSimpleArray.loop]
  | succ n ih => simp [makeSimpleArray.loop, ih, List.range'_succ]

theorem makeSimpleArray.loop_range (ndarr : array) :
    makeSimpleArray.loop ndarr ndarr.ndim 0 []
      = (List.range ndarr.ndim).map (fun i => ndarr.shape i) := by
  rw [makeSimpleArray.loop_eq, List.range_eq_range']
  simp

theorem makeSimpleArray.loop_shape (ndarr : array) :
    makeSimpleArray.loop ndarr ndarr.ndim 0 [] = ndarr.shape_vec := by
  rw [makeSimpleArray.loop_range]
  apply List.ext_getElem
  · simp [array.ndim]
  · intro i h1 h2
    simp [array.ndim] at h1
    simp [array.shape, h1, List.getD_eq_getElem?_getD]

theorem makeSimpleArray_writeable (calc_stride : List Nat → List Nat) (T : ElemType)
    (ndarr : array_t T) (hw : ndarr.arr.writeable = true) :
    makeSimpleArray calc_stride T ndarr
      = Except.ok
          { shape := ndarr.arr.shape_vec
            stride := calc_stride ndarr.arr.shape_vec
            buffer := ConcreteBuffer.mk ndarr.arr.nbytes ndarr.arr.data
              (remover_type.ConcreteBufferNdarrayRemover ndarr.arr) } := by
  simp only [makeSimpleArray, makeSimpleArray.loop_shape, SimpleArray.construct,
    ConcreteBufferNdarrayRemover.construct, array.mutable_data, hw, if_true]
  rfl

theorem makeSimpleArray_read_only (calc_stride : List Nat → List Nat) (T : ElemType)
    (ndarr : array_t T) (hw : ndarr.arr.writeable = false) :
    makeSimpleArray calc_stride T ndarr
      = Except.error (Exception.domain_error "array is not writeable") := by
  simp [makeSimpleArray, array.mutable_data, hw]

theorem makeSimpleArray_ok_writeable (calc_stride : List Nat → List Nat) (T : ElemType)
    (ndarr : array_t T) (n : SimpleArray T)
    (h : makeSimpleArray calc_stride T ndarr = Except.ok n) :
    ndarr.arr.writeable = true := by
  cases hw : ndarr.arr.writeable with
  | true => rfl
  | false =>
    rw [makeSimpleArray_read_only calc_stride T ndarr hw] at h
    cases h

theorem to_ndarray_eq {T : ElemType} (a : SimpleArray T) :
    to_ndarray a
      = Except.ok (array.mk T a.shape
          (a.stride.map (fun v => (v * T.sizeof) % size_t_modulus)) a.buffer.data
          (pyobject.ConcreteBuffer a.buffer) true) :=
  rfl

theorem array.size_eq_prod (arr : array) : arr.size = arr.shape_vec.prod := by
  unfold array.size
  rw [List.prod_eq_foldl]

theorem array.nbytes_of_zero_mem (arr : array) (h : 0 ∈ arr.shape_vec) :
    arr.nbytes = 0 := by
  unfold array.nbytes
  rw [array.size_eq_prod, List.prod_eq_zero h, Nat.zero_mul]

theorem array.nbytes_of_nil (arr : array) (h : arr.shape_vec = []) :
    arr.nbytes = arr.itemsize := by
  simp [array.nbytes, array.size, h]

theorem ElemType.sizeof_pos (T : ElemType) : 0 < T.sizeof := by
  cases T <;> decide

end python

end modmesh

/-! ## Properties of the buffer bridge -/

namespace modmesh

namespace python

/-- C4. For every native array `a`, `to_ndarray a` succeeds with a view whose shape is
the shape of `a`, whose data pointer is the data pointer of `a`, whose owner is the
shared buffer of `a` itself, and whose byte strides are, dimension by dimension, the
element strides of `a` multiplied by the item size: the `size_t` product the code
computes, which is the exact product whenever that fits in `size_t`. -/
theorem to_ndarray_view {T : ElemType} (a : SimpleArray T) :
    ∃ v : array, to_ndarray a = Except.ok v
      ∧ v.dtype = T
      ∧ v.shape_vec = a.shape
      ∧ v.data = a.data
      ∧ v.base = pyobject.ConcreteBuffer a.buffer
      ∧ v.strides.length = a.stride.length
      ∧ (∀ i : Nat, v.strides[i]?
          = (a.stride[i]?).map (fun s => (s * a.itemsize) % size_t_modulus))
      ∧ ((∀ s ∈ a.stride, s * a.itemsize < size_t_modulus) →
          ∀ i : Nat, v.strides[i]? = (a.stride[i]?).map (fun s => s * a.itemsize)) := by
  refine ⟨_, rfl, rfl, rfl, rfl, rfl, ?_, ?_, ?_⟩
  · simp [array.construct, array.strides]
  · intro i
    simp [array.construct, array.strides]
  · intro hfit i
    simp only [array.construct, array.strides, List.getElem?_map]
    cases hi : a.stride[i]? with
    | none => simp
    | some s =>
      have hs : s ∈ a.stride := List.getElem?_mem hi
      simp [Nat.mod_eq_of_lt (hfit s hs)]

/-- Witness of C4: a 2 x 3 array of `double` with element strides 3 and 1, whose
products with the item size fit in `size_t`, is exposed with byte strides 24 and
8. -/
theorem to_ndarray_view_witness :
    (∀ s ∈ [3, 1], s * ElemType.double.sizeof < size_t_modulus)
    ∧ ∃ v : array,
      to_ndarray (SimpleArray.mk [2, 3] [3, 1]
          (ConcreteBuffer.mk 48 4096 remover_type.plain) : SimpleArray ElemType.double)
        = Except.ok v
      ∧ v.shape_vec = [2, 3]
      ∧ v.data = 4096
      ∧ v.base = pyobject.ConcreteBuffer (ConcreteBuffer.mk 48 4096 remover_type.plain)
      ∧ ∀ i : Nat, v.strides[i]? = ([3, 1][i]?).map (fun s => s * 8) := by
  have hfit : ∀ s ∈ [3, 1], s * ElemType.double.sizeof < size_t_modulus := by
    decide
  obtain ⟨v, hv, -, hshape, hdata, hbase, -, -, hexact⟩ :=
    to_ndarray_view (SimpleArray.mk [2, 3] [3, 1]
      (ConcreteBuffer.mk 48 4096 remover_type.plain) : SimpleArray ElemType.double)
  exact ⟨hfit, v, hv, hshape, hdata, hbase, hexact hfit⟩

/-- Counterexample to C5: a read-only 2 x 3 view of `double` is of element type
`double`, yet `makeSimpleArray<double>` returns no array for it: `mutable_data()`
throws `std::domain_error`. -/
theorem makeSimpleArray_read_only_counterexample :
    makeSimpleArray row_major_stride ElemType.double
        (array_t.mk (array.mk ElemType.double [2, 3] [24, 8] 4096 pyobject.none false) rfl)
      = Except.error (Exception.domain_error "array is not writeable")
    ∧ ¬ ∃ n : SimpleArray ElemType.double,
        makeSimpleArray row_major_stride ElemType.double
          (array_t.mk (array.mk ElemType.double [2, 3] [24, 8] 4096 pyobject.none false) rfl)
        = Except.ok n := by
  refine ⟨rfl, ?_⟩
  rintro ⟨n, hn⟩
  have hw := makeSimpleArray_ok_writeable _ _ _ _ hn
  revert hw
  decide

/-- C5, amended. For every writeable external view `v` of element type `T`,
`makeSimpleArray<T>(v)` returns a native array whose shape has `v.ndim()` entries,
the i-th being `v.shape(i)`, and whose buffer has byte length `v.nbytes()`, the
data pointer of `v` and, as release strategy, a `ConcreteBufferNdarrayRemover`
constructed from `v`: the strategy holds the view, is of the adapter kind, and does
not free the pointer. For a view that is not writeable `mutable_data()` throws
`std::domain_error` and no array is returned. -/
theorem makeSimpleArray_result (calc_stride : List Nat → List Nat) (T : ElemType)
    (v : array_t T) :
    (v.arr.writeable = true →
      ∃ n : SimpleArray T, makeSimpleArray calc_stride T v = Except.ok n
        ∧ n.shape.length = v.arr.ndim
        ∧ n.shape = (List.range v.arr.ndim).map (fun i => v.arr.shape i)
        ∧ n.buffer.nbytes = v.arr.nbytes
        ∧ v.arr.mutable_data = Except.ok n.buffer.data
        ∧ n.buffer.data = v.arr.data
        ∧ n.buffer.remover = ConcreteBufferNdarrayRemover.construct v.arr
        ∧ ConcreteBufferNdarrayRemover.pinned n.buffer.remover = pyobject.array v.arr
        ∧ ConcreteBufferNdarrayRemover.is_same_type n.buffer.remover = true
        ∧ ConcreteBufferNdarrayRemover.call n.buffer.remover n.buffer.data = false)
    ∧ (v.arr.writeable = false →
      makeSimpleArray calc_stride T v
        = Except.error (Exception.domain_error "array is not writeable")) := by
  refine ⟨?_, makeSimpleArray_read_only calc_stride T v⟩
  intro hw
  refine ⟨_, makeSimpleArray_writeable calc_stride T v hw, ?_, ?_, rfl, ?_, rfl, rfl, rfl,
    rfl, rfl⟩
  · rfl
  · show v.arr.shape_vec = _
    rw [← makeSimpleArray.loop_range, makeSimpleArray.loop_shape]
  · simp [array.mutable_data, hw, ConcreteBuffer.data]

/-- Witness of the amended C5: a writeable 2 x 3 view of `double` at address 4096. -/
theorem makeSimpleArray_result_witness :
    (array.mk ElemType.double [2, 3] [24, 8] 4096 pyobject.none true).writeable = true
    ∧ ∃ n : SimpleArray ElemType.double,
      makeSimpleArray row_major_stride ElemType.double
          (array_t.mk (array.mk ElemType.double [2, 3] [24, 8] 4096 pyobject.none true) rfl)
        = Except.ok n
      ∧ n.shape = [2, 3]
      ∧ n.buffer.nbytes = 48
      ∧ n.buffer.data = 4096 := by
  obtain ⟨n, hn, -, hshape, hbytes, -, hdata, -, -, -, -⟩ :=
    (makeSimpleArray_result row_major_stride ElemType.double
      (array_t.mk (array.mk ElemType.double [2, 3] [24, 8] 4096 pyobject.none true) rfl)).1
      rfl
  exact ⟨rfl, n, hn, hshape, hbytes, hdata⟩

/-- C3. For every native array `a`, bridging it out with `to_ndarray` and back with
`makeSimpleArray` succeeds and gives a native array with the data pointer and the
shape of `a`. Nothing is copied: the new buffer is built on the pointer of `a`, its
release strategy is the adapter that does not free and holds the view, and the
owner of that view is the buffer of `a` itself. -/
theorem makeSimpleArray_to_ndarray (calc_stride : List Nat → List Nat) {T : ElemType}
    (a : SimpleArray T) :
    ∃ (v : array_t T) (n : SimpleArray T),
      to_ndarray a = Except.ok v.arr
      ∧ makeSimpleArray calc_stride T v = Except.ok n
      ∧ n.data = a.data
      ∧ n.shape = a.shape
      ∧ n.buffer.data = a.buffer.data
      ∧ n.buffer.remover = remover_type.ConcreteBufferNdarrayRemover v.arr
      ∧ ConcreteBufferNdarrayRemover.call n.buffer.remover n.buffer.data = false
      ∧ v.arr.data = a.data
      ∧ v.arr.base = pyobject.ConcreteBuffer a.buffer :=
  ⟨array_t.mk (array.mk T a.shape
      (a.stride.map (fun v => (v * T.sizeof) % size_t_modulus)) a.buffer.data
      (pyobject.ConcreteBuffer a.buffer) true) rfl, _, rfl,
    makeSimpleArray_writeable calc_stride T _ rfl, rfl, rfl, rfl, rfl, rfl, rfl, rfl⟩

/-- C10. `makeSimpleArray` does not read the byte strides of the view. For two views
of element type `T` with equal shapes, the native arrays it returns have the same
shape and the same stride (the one the stride rule gives for that shape), whatever
the byte strides (and pointers and owners) of the views; it returns an array
exactly for a writeable view, so for two writeable views both arrays exist. -/
theorem makeSimpleArray_ignores_strides (calc_stride : List Nat → List Nat)
    (T : ElemType) (v1 v2 : array_t T) (hshape : v1.arr.shape_vec = v2.arr.shape_vec) :
    (∀ n1 n2 : SimpleArray T,
      makeSimpleArray calc_stride T v1 = Except.ok n1 →
      makeSimpleArray calc_stride T v2 = Except.ok n2 →
      n1.shape = n2.shape ∧ n1.stride = n2.stride
        ∧ n1.stride = calc_stride v1.arr.shape_vec)
    ∧ (v1.arr.writeable = true → v2.arr.writeable = true →
      ∃ n1 n2 : SimpleArray T,
        makeSimpleArray calc_stride T v1 = Except.ok n1
        ∧ makeSimpleArray calc_stride T v2 = Except.ok n2
        ∧ n1.shape = n2.shape
        ∧ n1.stride = n2.stride)
    ∧ ((∃ n1 : SimpleArray T, makeSimpleArray calc_stride T v1 = Except.ok n1)
        ↔ v1.arr.writeable = true) := by
  have key : ∀ n1 n2 : SimpleArray T,
      makeSimpleArray calc_stride T v1 = Except.ok n1 →
      makeSimpleArray calc_stride T v2 = Except.ok n2 →
      n1.shape = n2.shape ∧ n1.stride = n2.stride
        ∧ n1.stride = calc_stride v1.arr.shape_vec := by
    intro n1 n2 h1 h2
    have w1 := makeSimpleArray_ok_writeable _ _ _ _ h1
    have w2 := makeSimpleArray_ok_writeable _ _ _ _ h2
    rw [makeSimpleArray_writeable calc_stride T v1 w1] at h1
    rw [makeSimpleArray_writeable calc_stride T v2 w2] at h2
    have e1 := Except.ok.inj h1
    have e2 := Except.ok.inj h2
    subst e1
    subst e2
    refine ⟨hshape, ?_, rfl⟩
    show calc_stride v1.arr.shape_vec = calc_stride v2.arr.shape_vec
    rw [hshape]
  refine ⟨key, ?_, ?_⟩
  · intro w1 w2
    have h1 := makeSimpleArray_writeable calc_stride T v1 w1
    have h2 := makeSimpleArray_writeable calc_stride T v2 w2
    exact ⟨_, _, h1, h2, (key _ _ h1 h2).1, (key _ _ h1 h2).2.1⟩
  · constructor
    · rintro ⟨n1, h1⟩
      exact makeSimpleArray_ok_writeable _ _ _ _ h1
    · intro w1
      exact ⟨_, makeSimpleArray_writeable calc_stride T v1 w1⟩

/-- Witness of C10: a contiguous 2 x 3 view of `double` (byte strides 24, 8) and a
transposed one (byte strides 8, 16) of the same shape, both writeable. -/
theorem makeSimpleArray_ignores_strides_witness :
    (array.mk ElemType.double [2, 3] [24, 8] 4096 pyobject.none true).shape_vec
        = (array.mk ElemType.double [2, 3] [8, 16] 8192 pyobject.none true).shape_vec
    ∧ ∃ n1 n2 : SimpleArray ElemType.double,
      makeSimpleArray row_major_stride ElemType.double
          (array_t.mk (array.mk ElemType.double [2, 3] [24, 8] 4096 pyobject.none true) rfl)
        = Except.ok n1
      ∧ makeSimpleArray row_major_stride ElemType.double
          (array_t.mk (array.mk ElemType.double [2, 3] [8, 16] 8192 pyobject.none true) rfl)
        = Except.ok n2
      ∧ n1.shape = n2.shape
      ∧ n1.stride = n2.stride :=
  ⟨rfl, (makeSimpleArray_ignores_strides row_major_stride ElemType.double
    (array_t.mk (array.mk ElemType.double [2, 3] [24, 8] 4096 pyobject.none true) rfl)
    (array_t.mk (array.mk ElemType.double [2, 3] [8, 16] 8192 pyobject.none true) rfl)
    rfl).2.1 rfl rfl⟩

/-- C8. `is_same_type` answers true exactly for a strategy whose dynamic type is
`ConcreteBufferNdarrayRemover`. It answers false for the plain owns-and-frees
strategy and for a strategy of any other type, also one that behaves the same way
(does not free the pointer and pins the same array). -/
theorem is_same_type_exact (r : remover_type) :
    (ConcreteBufferNdarrayRemover.is_same_type r = true
        ↔ ∃ ndarray : array, r = remover_type.ConcreteBufferNdarrayRemover ndarray)
    ∧ ConcreteBufferNdarrayRemover.is_same_type remover_type.plain = false
    ∧ ∀ (name : String) (ndarray : array) (ptr : Nat),
        ConcreteBufferNdarrayRemover.is_same_type
            (remover_type.other name false (pyobject.array ndarray)) = false
        ∧ ConcreteBufferNdarrayRemover.call
            (remover_type.other name false (pyobject.array ndarray)) ptr
          = ConcreteBufferNdarrayRemover.call
            (remover_type.ConcreteBufferNdarrayRemover ndarray) ptr
        ∧ ConcreteBufferNdarrayRemover.pinned
            (remover_type.other name false (pyobject.array ndarray))
          = ConcreteBufferNdarrayRemover.pinned
            (remover_type.ConcreteBufferNdarrayRemover ndarray) := by
  refine ⟨?_, rfl, ?_⟩
  · cases r with
    | plain => simp [ConcreteBufferNdarrayRemover.is_same_type, ConcreteBufferNdarrayRemover.typeid]
    | ConcreteBufferNdarrayRemover ndarray =>
      simp [ConcreteBufferNdarrayRemover.is_same_type, ConcreteBufferNdarrayRemover.typeid]
    | other name frees pinned =>
      simp [ConcreteBufferNdarrayRemover.is_same_type, ConcreteBufferNdarrayRemover.typeid]
  · intro name ndarray ptr
    exact ⟨by simp [ConcreteBufferNdarrayRemover.is_same_type,
      ConcreteBufferNdarrayRemover.typeid], rfl, rfl⟩

end python

end modmesh

namespace modmesh

namespace python

/-- Counterexample to C9: a writeable view of `double` without dimensions is bridged
to a native array whose buffer has 8 bytes, not zero; and a read-only 3 x 0 view of
`double` is not bridged at all. -/
theorem bridge_zero_dim_counterexample :
    (array.mk ElemType.double [] [] 4096 pyobject.none true).ndim = 0
    ∧ makeSimpleArray row_major_stride ElemType.double
        (array_t.mk (array.mk ElemType.double [] [] 4096 pyobject.none true) rfl)
      = Except.ok (SimpleArray.mk [] []
          (ConcreteBuffer.mk 8 4096 (remover_type.ConcreteBufferNdarrayRemover
            (array.mk ElemType.double [] [] 4096 pyobject.none true))))
    ∧ (¬ ∃ n : SimpleArray ElemType.double,
        makeSimpleArray row_major_stride ElemType.double
          (array_t.mk (array.mk ElemType.double [] [] 4096 pyobject.none true) rfl)
          = Except.ok n
        ∧ n.nbytes = 0)
    ∧ 0 ∈ (array.mk ElemType.double [3, 0] [0, 8] 4096 pyobject.none false).shape_vec
    ∧ makeSimpleArray row_major_stride ElemType.double
        (array_t.mk (array.mk ElemType.double [3, 0] [0, 8] 4096 pyobject.none false) rfl)
      = Except.error (Exception.domain_error "array is not writeable") := by
  refine ⟨rfl, rfl, ?_, by decide, rfl⟩
  rintro ⟨n, hn, h0⟩
  rw [makeSimpleArray_writeable row_major_stride ElemType.double
    (array_t.mk (array.mk ElemType.double [] [] 4096 pyobject.none true) rfl) rfl] at hn
  have hn2 := Except.ok.inj hn
  subst hn2
  revert h0
  decide

/-- C9, amended. `to_ndarray` succeeds on every native array of zero extent, and
`makeSimpleArray` on every writeable view of zero extent. For an array with a
dimension of size zero the result, in both directions, has the same shape and byte
length zero. For a writeable view without dimensions the native array has an empty
shape and the byte length of one element (the item size, which is positive), not
zero. For a native array without dimensions the view has an empty shape. -/
theorem bridge_zero_extent (calc_stride : List Nat → List Nat) (T : ElemType)
    (v : array_t T) (a : SimpleArray T) :
    (0 ∈ v.arr.shape_vec → v.arr.writeable = true →
      ∃ n : SimpleArray T, makeSimpleArray calc_stride T v = Except.ok n
        ∧ n.shape = v.arr.shape_vec ∧ n.nbytes = 0)
    ∧ (v.arr.shape_vec = [] → v.arr.writeable = true →
      ∃ n : SimpleArray T, makeSimpleArray calc_stride T v = Except.ok n
        ∧ n.shape = [] ∧ n.nbytes = T.sizeof ∧ 0 < T.sizeof)
    ∧ (0 ∈ a.shape →
      ∃ w : array, to_ndarray a = Except.ok w
        ∧ w.shape_vec = a.shape ∧ w.nbytes = 0)
    ∧ (a.shape = [] →
      ∃ w : array, to_ndarray a = Except.ok w ∧ w.shape_vec = []) := by
  refine ⟨?_, ?_, ?_, ?_⟩
  · intro h hw
    exact ⟨_, makeSimpleArray_writeable calc_stride T v hw, rfl,
      array.nbytes_of_zero_mem v.arr h⟩
  · intro h hw
    refine ⟨_, makeSimpleArray_writeable calc_stride T v hw, h, ?_, ElemType.sizeof_pos _⟩
    show v.arr.nbytes = T.sizeof
    rw [array.nbytes_of_nil v.arr h, array.itemsize, v.dtype_eq]
  · intro h
    exact ⟨_, to_ndarray_eq a, rfl, array.nbytes_of_zero_mem _ h⟩
  · intro h
    exact ⟨_, to_ndarray_eq a, h⟩

/-- Witness of the amended C9: a writeable 3 x 0 view of `double`, a 0 x 2 native
array of `int32`, and a writeable view of `double` without dimensions. -/
theorem bridge_zero_extent_witness :
    0 ∈ (array.mk ElemType.double [3, 0] [0, 8] 4096 pyobject.none true).shape_vec
    ∧ (∃ n : SimpleArray ElemType.double,
        makeSimpleArray row_major_stride ElemType.double
          (array_t.mk (array.mk ElemType.double [3, 0] [0, 8] 4096 pyobject.none true) rfl)
          = Except.ok n
        ∧ n.shape = [3, 0] ∧ n.nbytes = 0)
    ∧ 0 ∈ (SimpleArray.mk [0, 2] [2, 1]
        (ConcreteBuffer.mk 0 8192 remover_type.plain) : SimpleArray ElemType.int32).shape
    ∧ (∃ w : array,
        to_ndarray (SimpleArray.mk [0, 2] [2, 1]
          (ConcreteBuffer.mk 0 8192 remover_type.plain) : SimpleArray ElemType.int32)
          = Except.ok w
        ∧ w.shape_vec = [0, 2] ∧ w.nbytes = 0)
    ∧ ∃ n : SimpleArray ElemType.double,
        makeSimpleArray row_major_stride ElemType.double
          (array_t.mk (array.mk ElemType.double [] [] 4096 pyobject.none true) rfl)
          = Except.ok n
        ∧ n.shape = [] ∧ n.nbytes = 8 := by
  have h := bridge_zero_extent row_major_stride ElemType.double
    (array_t.mk (array.mk ElemType.double [3, 0] [0, 8] 4096 pyobject.none true) rfl)
    (SimpleArray.mk [] [] (ConcreteBuffer.mk 8 4096 remover_type.plain))
  have h2 := bridge_zero_extent row_major_stride ElemType.int32
    (array_t.mk (array.mk ElemType.int32 [] [] 4096 pyobject.none true) rfl)
    (SimpleArray.mk [0, 2] [2, 1] (ConcreteBuffer.mk 0 8192 remover_type.plain))
  have h3 := bridge_zero_extent row_major_stride ElemType.double
    (array_t.mk (array.mk ElemType.double [] [] 4096 pyobject.none true) rfl)
    (SimpleArray.mk [] [] (ConcreteBuffer.mk 8 4096 remover_type.plain))
  have m1 : 0 ∈ (array.mk ElemType.double [3, 0] [0, 8] 4096 pyobject.none true).shape_vec := by
    decide
  have m2 : 0 ∈ (SimpleArray.mk [0, 2] [2, 1]
      (ConcreteBuffer.mk 0 8192 remover_type.plain) : SimpleArray ElemType.int32).shape := by
    decide
  obtain ⟨n, hn, hs, hb, -⟩ := h3.2.1 rfl rfl
  exact ⟨m1, h.1 m1 rfl, m2, h2.2.2.1 m2, ⟨n, hn, hs, hb⟩⟩

end python

end modmesh

/-! ## Properties of the array property setters -/

namespace modmesh

namespace python

namespace WrapBase

theorem setter_writeable (calc_stride : List Nat → List Nat) {T : ElemType}
    {wrapped_type : Type} (f : wrapped_type → Address) (self : wrapped_type)
    (ndarr : array_t T) (st : Store T)
    (heq : ndarr.arr.nbytes = (st (f self)).nbytes) (hw : ndarr.arr.writeable = true) :
    expose_SimpleArray.setter calc_stride f self ndarr st
        = (Except.ok (), Function.update st (f self)
            { shape := ndarr.arr.shape_vec
              stride := calc_stride ndarr.arr.shape_vec
              buffer := ConcreteBuffer.mk ndarr.arr.nbytes ndarr.arr.data
                (remover_type.ConcreteBufferNdarrayRemover ndarr.arr) })
    ∧ expose_SimpleArrayAsNdarray.setter calc_stride f self ndarr st
        = (Except.ok (), Function.update st (f self)
            { shape := ndarr.arr.shape_vec
              stride := calc_stride ndarr.arr.shape_vec
              buffer := ConcreteBuffer.mk ndarr.arr.nbytes ndarr.arr.data
                (remover_type.ConcreteBufferNdarrayRemover ndarr.arr) }) := by
  have hcond : ¬ (st (f self)).nbytes ≠ ndarr.arr.nbytes := by
    rw [heq]
    exact fun h => h rfl
  constructor
  · simp only [expose_SimpleArray.setter, if_neg hcond,
      makeSimpleArray_writeable calc_stride T ndarr hw, SimpleArray.swap]
  · simp only [expose_SimpleArrayAsNdarray.setter, if_neg hcond,
      makeSimpleArray_writeable calc_stride T ndarr hw, SimpleArray.swap]

theorem setter_read_only (calc_stride : List Nat → List Nat) {T : ElemType}
    {wrapped_type : Type} (f : wrapped_type → Address) (self : wrapped_type)
    (ndarr : array_t T) (st : Store T)
    (heq : ndarr.arr.nbytes = (st (f self)).nbytes) (hw : ndarr.arr.writeable = false) :
    expose_SimpleArray.setter calc_stride f self ndarr st
        = (Except.error (Exception.domain_error "array is not writeable"), st)
    ∧ expose_SimpleArrayAsNdarray.setter calc_stride f self ndarr st
        = (Except.error (Exception.domain_error "array is not writeable"), st) := by
  have hcond : ¬ (st (f self)).nbytes ≠ ndarr.arr.nbytes := by
    rw [heq]
    exact fun h => h rfl
  constructor
  · simp only [expose_SimpleArray.setter, if_neg hcond,
      makeSimpleArray_read_only calc_stride T ndarr hw]
  · simp only [expose_SimpleArrayAsNdarray.setter, if_neg hcond,
      makeSimpleArray_read_only calc_stride T ndarr hw]

/-- C1. When the property array is backed by `m` bytes and the replacement view has
`k` bytes with `k ≠ m`, the setter installed by `expose_SimpleArray` and the one
installed by `expose_SimpleArrayAsNdarray` both fail with the length error, and
they leave every array object as it was: in particular shape, stride and buffer
(data pointer included) of the property array are those from before the call. -/
theorem setter_length_mismatch (calc_stride : List Nat → List Nat) {T : ElemType}
    {wrapped_type : Type} (f : wrapped_type → Address) (self : wrapped_type)
    (ndarr : array_t T) (st : Store T) (k m : Nat)
    (hk : ndarr.arr.nbytes = k) (hm : (st (f self)).nbytes = m) (hne : k ≠ m) :
    expose_SimpleArray.setter calc_stride f self ndarr st
        = (Except.error (Exception.length_error (length_message k m)), st)
    ∧ expose_SimpleArrayAsNdarray.setter calc_stride f self ndarr st
        = (Except.error (Exception.length_error (length_message k m)), st)
    ∧ ((expose_SimpleArray.setter calc_stride f self ndarr st).2 (f self)).shape
        = (st (f self)).shape
    ∧ ((expose_SimpleArray.setter calc_stride f self ndarr st).2 (f self)).stride
        = (st (f self)).stride
    ∧ ((expose_SimpleArray.setter calc_stride f self ndarr st).2 (f self)).buffer
        = (st (f self)).buffer
    ∧ ((expose_SimpleArrayAsNdarray.setter calc_stride f self ndarr st).2 (f self)).shape
        = (st (f self)).shape
    ∧ ((expose_SimpleArrayAsNdarray.setter calc_stride f self ndarr st).2 (f self)).stride
        = (st (f self)).stride
    ∧ ((expose_SimpleArrayAsNdarray.setter calc_stride f self ndarr st).2 (f self)).buffer
        = (st (f self)).buffer := by
  have hcond : m ≠ k := fun h => hne h.symm
  have h1 : expose_SimpleArray.setter calc_stride f self ndarr st
      = (Except.error (Exception.length_error (length_message k m)), st) := by
    simp only [expose_SimpleArray.setter, if_pos hcond, hk, hm]
  have h2 : expose_SimpleArrayAsNdarray.setter calc_stride f self ndarr st
      = (Except.error (Exception.length_error (length_message k m)), st) := by
    simp only [expose_SimpleArrayAsNdarray.setter, if_pos hcond, hk, hm]
  refine ⟨h1, h2, ?_, ?_, ?_, ?_, ?_, ?_⟩ <;> simp only [h1, h2]

/-- Witness of C1: a property array backed by 48 bytes and a replacement view of two
`double` (16 bytes). -/
theorem setter_length_mismatch_witness :
    expose_SimpleArray.setter row_major_stride (fun _ : Unit => 7) ()
        (array_t.mk (array.mk ElemType.double [2] [8] 8192 pyobject.none true) rfl)
        (fun _ => (SimpleArray.mk [2, 3] [3, 1]
          (ConcreteBuffer.mk 48 4096 remover_type.plain) : SimpleArray ElemType.double))
      = (Except.error (Exception.length_error
          "16 bytes of input array differ from 48 bytes of internal array"),
        fun _ => SimpleArray.mk [2, 3] [3, 1] (ConcreteBuffer.mk 48 4096 remover_type.plain)) :=
  (setter_length_mismatch row_major_stride (fun _ : Unit => 7) ()
    (array_t.mk (array.mk ElemType.double [2] [8] 8192 pyobject.none true) rfl)
    (fun _ => (SimpleArray.mk [2, 3] [3, 1]
      (ConcreteBuffer.mk 48 4096 remover_type.plain) : SimpleArray ElemType.double))
    16 48 (by decide) (by decide) (by decide)).1

/-- C2. Let the replacement view have the byte size of the property array. Whenever
a setter returns, the array object at the reference the getter function `f` hands
out (so every reference to it obtained earlier) is the array
`makeSimpleArray(replacement)`: it has that shape, stride and buffer, and its data
pointer is the pointer of the replacement; no other array object is changed. Both
setters do return when the replacement is writeable. When it is not, `mutable_data()`
throws `std::domain_error` inside `makeSimpleArray`, the setter does not return and
every array object stays as it was. -/
theorem setter_swap_visible (calc_stride : List Nat → List Nat) {T : ElemType}
    {wrapped_type : Type} (f : wrapped_type → Address) (self : wrapped_type)
    (ndarr : array_t T) (st : Store T)
    (heq : ndarr.arr.nbytes = (st (f self)).nbytes) :
    ((expose_SimpleArray.setter calc_stride f self ndarr st).1 = Except.ok () →
      ∃ n : SimpleArray T, makeSimpleArray calc_stride T ndarr = Except.ok n
        ∧ n.data = ndarr.arr.data
        ∧ (∀ r : Address, r = expose_SimpleArray.getter f self →
            (expose_SimpleArray.setter calc_stride f self ndarr st).2 r = n)
        ∧ (∀ r : Address, r ≠ f self →
            (expose_SimpleArray.setter calc_stride f self ndarr st).2 r = st r))
    ∧ ((expose_SimpleArrayAsNdarray.setter calc_stride f self ndarr st).1 = Except.ok () →
      ∃ n : SimpleArray T, makeSimpleArray calc_stride T ndarr = Except.ok n
        ∧ n.data = ndarr.arr.data
        ∧ (∀ r : Address, r = expose_SimpleArray.getter f self →
            (expose_SimpleArrayAsNdarray.setter calc_stride f self ndarr st).2 r = n)
        ∧ (∀ r : Address, r ≠ f self →
            (expose_SimpleArrayAsNdarray.setter calc_stride f self ndarr st).2 r = st r)
        ∧ expose_SimpleArrayAsNdarray.getter f self
            (expose_SimpleArrayAsNdarray.setter calc_stride f self ndarr st).2
          = to_ndarray n)
    ∧ (ndarr.arr.writeable = true →
        (expose_SimpleArray.setter calc_stride f self ndarr st).1 = Except.ok ()
        ∧ (expose_SimpleArrayAsNdarray.setter calc_stride f self ndarr st).1 = Except.ok ())
    ∧ (ndarr.arr.writeable = false →
        expose_SimpleArray.setter calc_stride f self ndarr st
          = (Except.error (Exception.domain_error "array is not writeable"), st)
        ∧ expose_SimpleArrayAsNdarray.setter calc_stride f self ndarr st
          = (Except.error (Exception.domain_error "array is not writeable"), st)) := by
  cases hw : ndarr.arr.writeable with
  | false =>
    obtain ⟨h1, h2⟩ := setter_read_only calc_stride f self ndarr st heq hw
    refine ⟨?_, ?_, ?_, ?_⟩
    · intro hret
      rw [h1] at hret
      cases hret
    · intro hret
      rw [h2] at hret
      cases hret
    · intro habs
      cases habs
    · intro _
      exact ⟨h1, h2⟩
  | true =>
    obtain ⟨h1, h2⟩ := setter_writeable calc_stride f self ndarr st heq hw
    refine ⟨?_, ?_, ?_, ?_⟩
    · intro _
      refine ⟨_, makeSimpleArray_writeable calc_stride T ndarr hw, rfl, ?_, ?_⟩
      · intro r hr
        rw [h1, hr]
        simp [expose_SimpleArray.getter]
      · intro r hr
        rw [h1]
        simp [Function.update_noteq hr]
    · intro _
      refine ⟨_, makeSimpleArray_writeable calc_stride T ndarr hw, rfl, ?_, ?_, ?_⟩
      · intro r hr
        rw [h2, hr]
        simp [expose_SimpleArray.getter]
      · intro r hr
        rw [h2]
        simp [Function.update_noteq hr]
      · rw [h2]
        simp [expose_SimpleArrayAsNdarray.getter]
    · intro _
      rw [h1, h2]
      exact ⟨rfl, rfl⟩
    · intro habs
      cases habs

/-- Witness of C2: a property array of 48 bytes at address 7 is assigned a writeable
3 x 2 view of `double` (48 bytes) that lives at pointer 8192; both setters return
and the object at address 7 then has the pointer 8192. -/
theorem setter_swap_visible_witness :
    (expose_SimpleArray.setter row_major_stride (fun _ : Unit => 7) ()
        (array_t.mk (array.mk ElemType.double [3, 2] [16, 8] 8192 pyobject.none true) rfl)
        (fun _ => (SimpleArray.mk [2, 3] [3, 1]
          (ConcreteBuffer.mk 48 4096 remover_type.plain)))).1 = Except.ok ()
    ∧ ∃ n : SimpleArray ElemType.double,
      makeSimpleArray row_major_stride ElemType.double
        (array_t.mk (array.mk ElemType.double [3, 2] [16, 8] 8192 pyobject.none true) rfl)
        = Except.ok n
      ∧ n.data = 8192
      ∧ (expose_SimpleArray.setter row_major_stride (fun _ : Unit => 7) ()
          (array_t.mk (array.mk ElemType.double [3, 2] [16, 8] 8192 pyobject.none true) rfl)
          (fun _ => (SimpleArray.mk [2, 3] [3, 1]
            (ConcreteBuffer.mk 48 4096 remover_type.plain)))).2 7 = n := by
  have h := setter_swap_visible row_major_stride (fun _ : Unit => 7) ()
      (array_t.mk (array.mk ElemType.double [3, 2] [16, 8] 8192 pyobject.none true) rfl)
      (fun _ => (SimpleArray.mk [2, 3] [3, 1]
        (ConcreteBuffer.mk 48 4096 remover_type.plain) : SimpleArray ElemType.double))
      (by decide)
  have hret := (h.2.2.1 rfl).1
  obtain ⟨n, hn, hdata, href, -⟩ := h.1 hret
  exact ⟨hret, n, hn, hdata, href 7 rfl⟩

end WrapBase

end python

end modmesh

/-! ## Properties of the profiling hook -/

namespace pybind11

namespace detail

namespace process_attribute

open modmesh modmesh.python

theorem precall_eq (S M : String) (p : Process) :
    precall (function_call.mk (function_record.mk S M)) p
      = if p.profiler.enabled = true then
          { p with registry :=
              { entries := Function.update p.registry.entries (S ++ "." ++ M)
                  (some ((p.registry.entries (S ++ "." ++ M)).getD TimerEntry.fresh).start) } }
        else p := by
  have hname : get_name (function_call.mk (function_record.mk S M)) = S ++ "." ++ M := rfl
  unfold precall
  rw [hname]
  split
  · cases h : p.registry.entries (S ++ "." ++ M) <;>
      simp [TimeRegistry.entry, TimeRegistry.assign, h]
  · rfl

theorem postcall_eq (S M : String) (p : Process) :
    postcall (function_call.mk (function_record.mk S M)) p
      = if p.profiler.enabled = true then
          { p with registry :=
              { entries := Function.update p.registry.entries (S ++ "." ++ M)
                  (some ((p.registry.entries (S ++ "." ++ M)).getD TimerEntry.fresh).stop) } }
        else p := by
  have hname : get_name (function_call.mk (function_record.mk S M)) = S ++ "." ++ M := rfl
  unfold postcall
  rw [hname]
  split
  · cases h : p.registry.entries (S ++ "." ++ M) <;>
      simp [TimeRegistry.entry, TimeRegistry.assign, h]
  · rfl

/-- C7. For a timed operation with scope name `S` and method name `M`, run as
precall, operation, postcall, where the operation itself leaves the registry alone:
a start is recorded on the entry keyed `S.M` exactly when the switch is enabled at
precall, a stop on that entry exactly when it is enabled at postcall, and no other
entry is touched. So with the switch off before and after, the registry is
unchanged (no entry is created); with the switch on throughout, one start followed
by one stop is recorded; with the switch turned off in between, a start without
stop is recorded. -/
theorem hook_gating (S M : String) (op : Process → Process) (p : Process)
    (hop : ∀ q : Process, (op q).registry = q.registry) :
    get_name (function_call.mk (function_record.mk S M)) = S ++ "." ++ M
    ∧ (p.profiler.enabled = true →
        (precall (function_call.mk (function_record.mk S M)) p).registry.entries (S ++ "." ++ M)
          = some ((p.registry.entries (S ++ "." ++ M)).getD TimerEntry.fresh).start)
    ∧ (p.profiler.enabled = false →
        (precall (function_call.mk (function_record.mk S M)) p).registry = p.registry)
    ∧ (p.profiler.enabled = true →
        (postcall (function_call.mk (function_record.mk S M)) p).registry.entries (S ++ "." ++ M)
          = some ((p.registry.entries (S ++ "." ++ M)).getD TimerEntry.fresh).stop)
    ∧ (p.profiler.enabled = false →
        (postcall (function_call.mk (function_record.mk S M)) p).registry = p.registry)
    ∧ (∀ key : String, key ≠ S ++ "." ++ M →
        (precall (function_call.mk (function_record.mk S M)) p).registry.entries key
          = p.registry.entries key
        ∧ (postcall (function_call.mk (function_record.mk S M)) p).registry.entries key
          = p.registry.entries key
        ∧ (timed_call (function_call.mk (function_record.mk S M)) op p).registry.entries key
          = p.registry.entries key)
    ∧ (p.profiler.enabled = false →
        (op (precall (function_call.mk (function_record.mk S M)) p)).profiler.enabled = false →
        (timed_call (function_call.mk (function_record.mk S M)) op p).registry = p.registry)
    ∧ (p.profiler.enabled = true →
        (op (precall (function_call.mk (function_record.mk S M)) p)).profiler.enabled = true →
        (timed_call (function_call.mk (function_record.mk S M)) op p).registry.entries
            (S ++ "." ++ M)
          = some { events := ((p.registry.entries (S ++ "." ++ M)).getD TimerEntry.fresh).events
              ++ [TimerEvent.start, TimerEvent.stop] })
    ∧ (p.profiler.enabled = true →
        (op (precall (function_call.mk (function_record.mk S M)) p)).profiler.enabled = false →
        (timed_call (function_call.mk (function_record.mk S M)) op p).registry.entries
            (S ++ "." ++ M)
          = some { events := ((p.registry.entries (S ++ "." ++ M)).getD TimerEntry.fresh).events
              ++ [TimerEvent.start] })
    ∧ (p.profiler.enabled = false →
        (op (precall (function_call.mk (function_record.mk S M)) p)).profiler.enabled = true →
        (timed_call (function_call.mk (function_record.mk S M)) op p).registry.entries
            (S ++ "." ++ M)
          = some { events := ((p.registry.entries (S ++ "." ++ M)).getD TimerEntry.fresh).events
              ++ [TimerEvent.stop] }) := by
  have hname : get_name (function_call.mk (function_record.mk S M)) = S ++ "." ++ M := rfl
  refine ⟨hname, ?_, ?_, ?_, ?_, ?_, ?_, ?_, ?_, ?_⟩
  · intro h
    simp [precall_eq, h, hname]
  · intro h
    simp [precall_eq, h]
  · intro h
    simp [postcall_eq, h, hname]
  · intro h
    simp [postcall_eq, h]
  · intro key hkey
    refine ⟨?_, ?_, ?_⟩
    · rw [precall_eq]
      split <;> simp [hname, Function.update_noteq hkey]
    · rw [postcall_eq]
      split <;> simp [hname, Function.update_noteq hkey]
    · unfold timed_call
      rw [postcall_eq]
      split
      · simp only [Function.update_noteq hkey, hop]
        rw [precall_eq]
        split <;> simp [hname, Function.update_noteq hkey]
      · rw [hop, precall_eq]
        split <;> simp [hname, Function.update_noteq hkey]
  · intro h1 h2
    unfold timed_call
    rw [postcall_eq, if_neg (by simp [h2]), hop, precall_eq, if_neg (by simp [h1])]
  · intro h1 h2
    unfold timed_call
    rw [postcall_eq, if_pos h2]
    simp only [hop]
    rw [precall_eq, if_pos h1]
    simp [hname, TimerEntry.start, TimerEntry.stop]
  · intro h1 h2
    unfold timed_call
    rw [postcall_eq, if_neg (by simp [h2]), hop, precall_eq, if_pos h1]
    simp [hname, TimerEntry.start]
  · intro h1 h2
    unfold timed_call
    rw [postcall_eq, if_pos h2]
    simp only [hop]
    rw [precall_eq, if_neg (by simp [h1])]
    simp [TimerEntry.stop]

/-- Witness of C7: the timed operation `Grid.fill` run in a process with the switch
on and an empty registry, by an operation that turns the switch off: the entry
`Grid.fill` holds a start and no stop. -/
theorem hook_gating_witness :
    (∀ q : Process,
      ((fun r : Process => { r with profiler := r.profiler.disable }) q).registry = q.registry)
    ∧ (timed_call (function_call.mk (function_record.mk "Grid" "fill"))
        (fun r : Process => { r with profiler := r.profiler.disable })
        { profiler := WrapperProfilerStatus.construct
          registry := { entries := fun _ => none } }).registry.entries "Grid.fill"
      = some { events := [TimerEvent.start] } :=
  ⟨fun _ => rfl,
    (hook_gating "Grid" "fill" (fun r : Process => { r with profiler := r.profiler.disable })
      { profiler := WrapperProfilerStatus.construct
        registry := { entries := fun _ => none } }
      (fun _ => rfl)).2.2.2.2.2.2.2.2.1 rfl rfl⟩

end process_attribute

end detail

end pybind11
